import Mathlib

/-!
Shallow embedding of the HTBCM landfill leachate simulation from
`src/app32.py`: a one-dimensional explicit finite-difference scheme coupling
advection, dispersion, linear sorption, Monod biodegradation, rainfall
infiltration at the surface node and Darcy liner leakage at the base node.
Exact rational arithmetic stands in for Python floats; a time row is a
function from the depth-node index to a rational value.
-/

/-- Spatial step in metres; the source hard-codes `dx = 1.0`. -/
def dx : ℚ := 1

/-- Time step in days; the source hard-codes `dt = 1.0`. -/
def dt : ℚ := 1

/-- The sidebar coefficients together with the two uniform initial values;
all are fixed for the life of one simulation run. -/
structure Params where
  velocity : ℚ
  dispersion : ℚ
  rainfall_rate : ℚ
  infiltration_coeff : ℚ
  liner_thickness : ℚ
  liner_perm : ℚ
  sorption_kd : ℚ
  mu_max : ℚ
  Ks : ℚ
  biogas_yield : ℚ
  initial_conc : ℚ
  initial_biomass : ℚ

/-- `rain_input = (rainfall_rate / 1000.0) * infiltration_coeff` (m/day). -/
def rain_input (p : Params) : ℚ :=
  p.rainfall_rate / 1000 * p.infiltration_coeff

/-- `liner_leakage = liner_perm * (1.0 / liner_thickness) * dt * 86400`,
the simple Darcy leakage estimate of the source. -/
def liner_leakage (p : Params) : ℚ :=
  p.liner_perm * (1 / p.liner_thickness) * dt * 86400

/-- Monod kinetics: `monod(C, B, mu_max, Ks) = mu_max * C / (Ks + C) * B`,
with Python's left-to-right evaluation order. -/
def monod (C B mu_max Ks : ℚ) : ℚ :=
  mu_max * C / (Ks + C) * B

/-- One-dimensional `np.gradient` with uniform spacing `dx` on an array of
`nx` nodes: first-order one-sided differences at the two ends and central
differences at interior nodes (numpy default edge order). -/
def grad (nx : ℕ) (c : ℕ → ℚ) : ℕ → ℚ := fun i =>
  if i = 0 then (c 1 - c 0) / dx
  else if i = nx - 1 then (c (nx - 1) - c (nx - 2)) / dx
  else (c (i + 1) - c (i - 1)) / (2 * dx)

/-- The infiltration source array: `rain_input * 1000` at the surface node 0
and zero everywhere else. -/
def infiltration_input (p : Params) (i : ℕ) : ℚ :=
  if i = 0 then rain_input p * 1000 else 0

/-- The liner loss array: `liner_leakage * C[n-1, -1]` at the base node
`nx - 1` and zero everywhere else. -/
def liner_loss (p : Params) (nx : ℕ) (c : ℕ → ℚ) (i : ℕ) : ℚ :=
  if i = nx - 1 then liner_leakage p * c (nx - 1) else 0

/-- The pointwise biodegradation rate: Monod kinetics evaluated on the
mobile fraction `C[n-1, i] / (1 + sorption_kd)` and the biomass `B[n-1, i]`. -/
def growth (p : Params) (c b : ℕ → ℚ) (i : ℕ) : ℚ :=
  monod (c i / (1 + p.sorption_kd)) (b i) p.mu_max p.Ks

/-- One explicit step of the concentration row: the advection, dispersion,
degradation, infiltration and liner terms of lines 76-78 of the source,
followed by the non-negativity clamp `np.maximum(C[n,:], 0)` of line 79. -/
def stepC (p : Params) (nx : ℕ) (c b : ℕ → ℚ) (i : ℕ) : ℚ :=
  max (c i - p.velocity * grad nx c i * dt
        + p.dispersion * grad nx (grad nx c) i * dt
        - growth p c b i * dt
        + infiltration_input p i * dt
        - liner_loss p nx c i) 0

/-- One explicit step of the biomass row: `B[n,:] = B[n-1,:] + growth * dt`. -/
def stepB (p : Params) (c b : ℕ → ℚ) (i : ℕ) : ℚ :=
  b i + growth p c b i * dt

/-- One step of the cumulative gas series:
`gas[n] = gas[n-1] + np.sum(growth * dt * biogas_yield)`. -/
def stepGas (p : Params) (nx : ℕ) (c b : ℕ → ℚ) (g : ℚ) : ℚ :=
  g + ∑ i ∈ Finset.range nx, growth p c b i * dt * p.biogas_yield

/-- The full simulation state after `n` steps: the concentration row, the
biomass row and the cumulative gas value.  Row 0 is the uniform initial
condition of lines 48-52; row `n+1` is one stepper application to row `n`. -/
def state (p : Params) (nx : ℕ) : ℕ → (ℕ → ℚ) × (ℕ → ℚ) × ℚ
  | 0 => (fun _ => p.initial_conc, fun _ => p.initial_biomass, 0)
  | n + 1 =>
    (fun i => stepC p nx (state p nx n).1 (state p nx n).2.1 i,
     fun i => stepB p (state p nx n).1 (state p nx n).2.1 i,
     stepGas p nx (state p nx n).1 (state p nx n).2.1 (state p nx n).2.2)

/-- Concentration field entry at time row `n`, depth node `i`. -/
def Cfield (p : Params) (nx : ℕ) (n i : ℕ) : ℚ :=
  (state p nx n).1 i

/-- Biomass field entry at time row `n`, depth node `i`. -/
def Bfield (p : Params) (nx : ℕ) (n i : ℕ) : ℚ :=
  (state p nx n).2.1 i

/-- Cumulative gas series at time row `n`. -/
def gasSeries (p : Params) (nx : ℕ) (n : ℕ) : ℚ :=
  (state p nx n).2.2

/-- The slider default parameter set of the source (velocity 0.05,
dispersion 0.01, rainfall 10 mm/day, infiltration coefficient 0.5, liner
thickness 1 m, permeability 1e-9 m/s, Kd 1, mu_max 0.1, Ks 50, yield 0.5,
initial concentration 100, initial biomass 50), used as a concrete
instantiation point. -/
def pW : Params :=
  ⟨1/20, 1/100, 10, 1/2, 1, 1/1000000000, 1, 1/10, 50, 1/2, 100, 50⟩

/-- The concrete scenario of the spec: rainfall 0, permeability 0, Kd 0,
`mu_max` 0, uniform initial concentration 100 and biomass 50, with the
remaining coefficients as stated (velocity 0.05, dispersion 0.01,
thickness 1, Ks 50, yield 0.5). -/
def scenarioP : Params :=
  ⟨1/20, 1/100, 0, 1/2, 1, 0, 0, 0, 50, 1/2, 100, 50⟩

/-- Replace only the rainfall rate and infiltration coefficient of a
parameter set. -/
def withRain (p : Params) (r ic : ℚ) : Params :=
  { p with rainfall_rate := r, infiltration_coeff := ic }

/-- Replace only the liner thickness and permeability of a parameter set. -/
def withLiner (p : Params) (th pe : ℚ) : Params :=
  { p with liner_thickness := th, liner_perm := pe }

/-- A parameter set far outside the documented domains: negative half
saturation `Ks = -50` and liner permeability 0 (the domain requires
`Ks > 0` and permeability `> 0`). -/
def pBad : Params :=
  ⟨0, 0, 0, 0, 1, 0, 0, 1/10, -50, 1/2, 100, 50⟩

/-- Row 0 of the concentration field is the uniform initial concentration. -/
lemma Cfield_zero (p : Params) (nx i : ℕ) : Cfield p nx 0 i = p.initial_conc := rfl

/-- Row 0 of the biomass field is the uniform initial biomass. -/
lemma Bfield_zero (p : Params) (nx i : ℕ) : Bfield p nx 0 i = p.initial_biomass := rfl

/-- The gas series starts at zero (`gas = np.zeros(t_steps)`). -/
lemma gasSeries_zero (p : Params) (nx : ℕ) : gasSeries p nx 0 = 0 := rfl

/-- Unfolding lemma: row `n+1` of the concentration field is one `stepC`
application to row `n`. -/
lemma Cfield_succ (p : Params) (nx n i : ℕ) :
    Cfield p nx (n + 1) i =
      stepC p nx (fun j => Cfield p nx n j) (fun j => Bfield p nx n j) i := rfl

/-- Unfolding lemma: row `n+1` of the biomass field is one `stepB`
application to row `n`. -/
lemma Bfield_succ (p : Params) (nx n i : ℕ) :
    Bfield p nx (n + 1) i =
      Bfield p nx n i
        + growth p (fun j => Cfield p nx n j) (fun j => Bfield p nx n j) i * dt := rfl

/-- Unfolding lemma: entry `n+1` of the gas series adds the summed yield of
row `n`. -/
lemma gasSeries_succ (p : Params) (nx n : ℕ) :
    gasSeries p nx (n + 1) =
      gasSeries p nx n
        + ∑ i ∈ Finset.range nx,
            growth p (fun j => Cfield p nx n j) (fun j => Bfield p nx n j) i
              * dt * p.biogas_yield := rfl

/-- The Monod rate is non-negative when the numerator factors are
non-negative and the denominator is positive. -/
lemma monod_nonneg {C B mu Ks : ℚ} (hmu : 0 ≤ mu) (hC : 0 ≤ C)
    (hB : 0 ≤ B) (hd : 0 < Ks + C) : 0 ≤ monod C B mu Ks := by
  unfold monod
  exact mul_nonneg (div_nonneg (mul_nonneg hmu hC) hd.le) hB

/-- The pointwise degradation rate is non-negative on non-negative rows when
the kinetic and sorption coefficients are in their documented domains. -/
lemma growth_nonneg (p : Params) (c b : ℕ → ℚ) (i : ℕ)
    (hmu : 0 ≤ p.mu_max) (hKs : 0 < p.Ks) (hKd : 0 ≤ p.sorption_kd)
    (hc : 0 ≤ c i) (hb : 0 ≤ b i) : 0 ≤ growth p c b i := by
  unfold growth
  have hKd1 : (0 : ℚ) < 1 + p.sorption_kd := by linarith
  have hm : 0 ≤ c i / (1 + p.sorption_kd) := div_nonneg hc hKd1.le
  exact monod_nonneg hmu hm hb (by linarith)

/-- Every concentration entry is non-negative: row 0 by the hypothesis on
the initial value, later rows by the clamp. -/
lemma Cfield_nonneg (p : Params) (nx : ℕ) (h0 : 0 ≤ p.initial_conc) :
    ∀ n i, 0 ≤ Cfield p nx n i := by
  intro n i
  cases n with
  | zero => exact h0
  | succ m => exact le_max_right _ 0

/-- Every biomass entry is non-negative under the documented parameter
domains, by induction along the time axis. -/
lemma Bfield_nonneg (p : Params) (nx : ℕ)
    (hmu : 0 ≤ p.mu_max) (hKs : 0 < p.Ks) (hKd : 0 ≤ p.sorption_kd)
    (hC0 : 0 ≤ p.initial_conc) (hB0 : 0 ≤ p.initial_biomass) :
    ∀ n i, 0 ≤ Bfield p nx n i := by
  intro n
  induction n with
  | zero => intro i; exact hB0
  | succ m ih =>
    intro i
    have hg : 0 ≤ growth p (fun j => Cfield p nx m j) (fun j => Bfield p nx m j) i :=
      growth_nonneg p _ _ i hmu hKs hKd (Cfield_nonneg p nx hC0 m i) (ih i)
    have hdt : (0 : ℚ) ≤ dt := by norm_num [dt]
    rw [Bfield_succ]
    have := mul_nonneg hg hdt
    linarith [ih i]

/-- C1: for every time step `n` with `1 ≤ n < t_steps` and every depth node
`i < nx` (grid invariant `2 ≤ nx`), the stepper computes the new
concentration entry as the previous entry minus `velocity * dCdx * dt` plus
`dispersion * d2Cdx2 * dt` minus `growth * dt` plus `infiltration * dt`
minus the liner loss, clamped at zero, where `dCdx` and `d2Cdx2` are the
gradient and gradient-of-gradient of row `n-1`, `growth` is the Monod rate
on the mobile fraction `C[n-1,i]/(1+Kd)` and biomass `B[n-1,i]`,
infiltration is `rain_input * 1000` at node 0 only, and the liner loss is
`permeability * (1/thickness) * dt * 86400 * C[n-1, nx-1]` at the last node
only. -/
theorem stepper_update_formula (p : Params) (nx t_steps n i : ℕ)
    (hn : 1 ≤ n) (hnt : n < t_steps) (hnx : 2 ≤ nx) (hi : i < nx) :
    Cfield p nx n i =
      max (Cfield p nx (n - 1) i
            - p.velocity * grad nx (fun j => Cfield p nx (n - 1) j) i * dt
            + p.dispersion
              * grad nx (grad nx (fun j => Cfield p nx (n - 1) j)) i * dt
            - monod (Cfield p nx (n - 1) i / (1 + p.sorption_kd))
                (Bfield p nx (n - 1) i) p.mu_max p.Ks * dt
            + (if i = 0 then rain_input p * 1000 else 0) * dt
            - (if i = nx - 1
                then p.liner_perm * (1 / p.liner_thickness) * dt * 86400
                      * Cfield p nx (n - 1) (nx - 1)
                else 0)) 0 := by
  obtain ⟨m, rfl⟩ : ∃ m, n = m + 1 := ⟨n - 1, (Nat.succ_pred_eq_of_pos hn).symm⟩
  rfl

/-- C2: assuming a non-negative initial concentration, every entry of the
concentration field is non-negative at every time step and depth node. -/
theorem concentration_nonneg (p : Params) (nx : ℕ)
    (h0 : 0 ≤ p.initial_conc) :
    ∀ n i, i < nx → 0 ≤ Cfield p nx n i := by
  intro n i _
  exact Cfield_nonneg p nx h0 n i

/-- C6: the Monod rate vanishes at zero concentration for any biomass and
coefficients; and for `Ks > 0`, `mu_max ≥ 0`, `B ≥ 0` it is monotone
non-decreasing in the concentration on `C ≥ 0` and bounded above by
`mu_max * B`. -/
theorem monod_kinetics_props (B mu Ks : ℚ)
    (hKs : 0 < Ks) (hmu : 0 ≤ mu) (hB : 0 ≤ B) :
    (∀ B' mu' Ks' : ℚ, monod 0 B' mu' Ks' = 0) ∧
    (∀ c1 c2 : ℚ, 0 ≤ c1 → c1 ≤ c2 →
      monod c1 B mu Ks ≤ monod c2 B mu Ks) ∧
    (∀ c : ℚ, 0 ≤ c → monod c B mu Ks ≤ mu * B) := by
  refine ⟨fun B' mu' Ks' => by simp [monod], ?_, ?_⟩
  · intro c1 c2 hc1 hc12
    unfold monod
    have hd1 : (0 : ℚ) < Ks + c1 := by linarith
    have hd2 : (0 : ℚ) < Ks + c2 := by linarith
    have key : c1 / (Ks + c1) ≤ c2 / (Ks + c2) := by
      rw [div_le_div_iff hd1 hd2]
      nlinarith
    calc mu * c1 / (Ks + c1) * B = mu * (c1 / (Ks + c1)) * B := by
          rw [mul_div_assoc]
      _ ≤ mu * (c2 / (Ks + c2)) * B := by
          apply mul_le_mul_of_nonneg_right _ hB
          exact mul_le_mul_of_nonneg_left key hmu
      _ = mu * c2 / (Ks + c2) * B := by rw [mul_div_assoc]
  · intro c hc
    unfold monod
    have hd : (0 : ℚ) < Ks + c := by linarith
    have hq : c / (Ks + c) ≤ 1 := by
      rw [div_le_one hd]
      linarith
    calc mu * c / (Ks + c) * B = mu * (c / (Ks + c)) * B := by
          rw [mul_div_assoc]
      _ ≤ mu * 1 * B := by
          apply mul_le_mul_of_nonneg_right _ hB
          exact mul_le_mul_of_nonneg_left hq hmu
      _ = mu * B := by ring

/-- Witness for C1 at the default parameters, `nx = 3`, step `n = 1`, base
node `i = 2`. -/
theorem stepper_update_formula_witness :
    Cfield pW 3 1 2 =
      max (Cfield pW 3 0 2
            - pW.velocity * grad 3 (fun j => Cfield pW 3 0 j) 2 * dt
            + pW.dispersion
              * grad 3 (grad 3 (fun j => Cfield pW 3 0 j)) 2 * dt
            - monod (Cfield pW 3 0 2 / (1 + pW.sorption_kd))
                (Bfield pW 3 0 2) pW.mu_max pW.Ks * dt
            + (if 2 = 0 then rain_input pW * 1000 else 0) * dt
            - (if 2 = 3 - 1
                then pW.liner_perm * (1 / pW.liner_thickness) * dt * 86400
                      * Cfield pW 3 0 (3 - 1)
                else 0)) 0 :=
  stepper_update_formula pW 3 2 1 2 (by decide) (by decide) (by decide) (by decide)

/-- Witness for C2 at the default parameters, `nx = 5`, row 3, node 2. -/
theorem concentration_nonneg_witness :
    0 ≤ pW.initial_conc ∧ 0 ≤ Cfield pW 5 3 2 :=
  ⟨by norm_num [pW], concentration_nonneg pW 5 (by norm_num [pW]) 3 2 (by decide)⟩

/-- Witness for C6 at `B = 50`, `mu_max = 1/10`, `Ks = 50`. -/
theorem monod_kinetics_props_witness :
    monod 0 7 3 9 = 0 ∧
    monod 1 50 (1/10) 50 ≤ monod 2 50 (1/10) 50 ∧
    monod 3 50 (1/10) 50 ≤ 1/10 * 50 :=
  ⟨(monod_kinetics_props 50 (1/10) 50 (by norm_num) (by norm_num) (by norm_num)).1 7 3 9,
   (monod_kinetics_props 50 (1/10) 50 (by norm_num) (by norm_num) (by norm_num)).2.1
     1 2 (by norm_num) (by norm_num),
   (monod_kinetics_props 50 (1/10) 50 (by norm_num) (by norm_num) (by norm_num)).2.2
     3 (by norm_num)⟩

/-- C3: under the documented parameter domains (`mu_max ≥ 0`, `Ks > 0`,
`Kd ≥ 0`) and non-negative uniform initial concentration and biomass, the
biomass field is monotone non-decreasing per node along the time axis: the
update adds the non-negative term `growth * dt` and has no decay term. -/
theorem biomass_monotone (p : Params) (nx : ℕ)
    (hmu : 0 ≤ p.mu_max) (hKs : 0 < p.Ks) (hKd : 0 ≤ p.sorption_kd)
    (hC0 : 0 ≤ p.initial_conc) (hB0 : 0 ≤ p.initial_biomass) :
    ∀ n i, i < nx → Bfield p nx n i ≤ Bfield p nx (n + 1) i := by
  intro n i _
  have hg : 0 ≤ growth p (fun j => Cfield p nx n j) (fun j => Bfield p nx n j) i :=
    growth_nonneg p _ _ i hmu hKs hKd (Cfield_nonneg p nx hC0 n i)
      (Bfield_nonneg p nx hmu hKs hKd hC0 hB0 n i)
  have hdt : (0 : ℚ) ≤ dt := by norm_num [dt]
  rw [Bfield_succ]
  have := mul_nonneg hg hdt
  linarith

/-- Witness for C3 at the default parameters, `nx = 4`, `n = 2`, node 1. -/
theorem biomass_monotone_witness :
    Bfield pW 4 2 1 ≤ Bfield pW 4 3 1 :=
  biomass_monotone pW 4 (by norm_num [pW]) (by norm_num [pW]) (by norm_num [pW])
    (by norm_num [pW]) (by norm_num [pW]) 2 1 (by decide)

/-- C4: the cumulative gas series starts at zero, and under the documented
parameter domains (`mu_max ≥ 0`, `Ks > 0`, `Kd ≥ 0`, `biogas_yield ≥ 0`)
with non-negative initial concentration and biomass it is monotone
non-decreasing. -/
theorem gas_monotone (p : Params) (nx : ℕ)
    (hmu : 0 ≤ p.mu_max) (hKs : 0 < p.Ks) (hKd : 0 ≤ p.sorption_kd)
    (hy : 0 ≤ p.biogas_yield)
    (hC0 : 0 ≤ p.initial_conc) (hB0 : 0 ≤ p.initial_biomass) :
    gasSeries p nx 0 = 0 ∧
    ∀ n, gasSeries p nx n ≤ gasSeries p nx (n + 1) := by
  refine ⟨rfl, fun n => ?_⟩
  rw [gasSeries_succ]
  have hsum : 0 ≤ ∑ i ∈ Finset.range nx,
      growth p (fun j => Cfield p nx n j) (fun j => Bfield p nx n j) i
        * dt * p.biogas_yield := by
    apply Finset.sum_nonneg
    intro i _
    have hg : 0 ≤ growth p (fun j => Cfield p nx n j) (fun j => Bfield p nx n j) i :=
      growth_nonneg p _ _ i hmu hKs hKd (Cfield_nonneg p nx hC0 n i)
        (Bfield_nonneg p nx hmu hKs hKd hC0 hB0 n i)
    have hdt : (0 : ℚ) ≤ dt := by norm_num [dt]
    exact mul_nonneg (mul_nonneg hg hdt) hy
  linarith

/-- Witness for C4 at the default parameters, `nx = 4`, comparing rows 2
and 3. -/
theorem gas_monotone_witness :
    gasSeries pW 4 0 = 0 ∧ gasSeries pW 4 2 ≤ gasSeries pW 4 3 := by
  have h := gas_monotone pW 4 (by norm_num [pW]) (by norm_num [pW])
    (by norm_num [pW]) (by norm_num [pW]) (by norm_num [pW]) (by norm_num [pW])
  exact ⟨h.1, h.2 2⟩

/-- C9: in exact arithmetic the cumulative gas at every step equals the
biogas yield times the total biomass gained over all depth nodes since the
start; the gas series is determined by the biomass field and the yield. -/
theorem gas_eq_yield_mul_biomass_gain (p : Params) (nx n : ℕ) :
    gasSeries p nx n =
      p.biogas_yield
        * ∑ i ∈ Finset.range nx, (Bfield p nx n i - Bfield p nx 0 i) := by
  induction n with
  | zero => simp [gasSeries_zero]
  | succ m ih =>
    rw [gasSeries_succ, ih]
    have hsum : ∑ i ∈ Finset.range nx, (Bfield p nx (m + 1) i - Bfield p nx 0 i)
        = ∑ i ∈ Finset.range nx,
            ((Bfield p nx m i - Bfield p nx 0 i)
              + growth p (fun j => Cfield p nx m j) (fun j => Bfield p nx m j) i
                * dt) :=
      Finset.sum_congr rfl (fun i _ => by rw [Bfield_succ]; ring)
    rw [hsum, Finset.sum_add_distrib, mul_add]
    congr 1
    rw [Finset.mul_sum]
    apply Finset.sum_congr rfl
    intro i _
    ring

/-- The numpy gradient of a spatially uniform row vanishes at every node:
every branch of the difference formula has a zero numerator. -/
lemma grad_const (nx : ℕ) (q : ℚ) : grad nx (fun _ => q) = fun _ => 0 := by
  funext i
  simp [grad]

/-- With `mu_max = 0` the degradation rate vanishes pointwise. -/
lemma growth_zero_mu (p : Params) (c b : ℕ → ℚ) (i : ℕ)
    (hmu : p.mu_max = 0) : growth p c b i = 0 := by
  simp [growth, monod, hmu]

/-- A uniform non-negative concentration row is a fixed point of the
concentration step when rainfall, liner permeability and `mu_max` are all
zero: every derivative, source, sink and reaction term vanishes. -/
lemma stepC_const (p : Params) (nx : ℕ) (q r : ℚ) (hq : 0 ≤ q)
    (hrain : p.rainfall_rate = 0) (hperm : p.liner_perm = 0)
    (hmu : p.mu_max = 0) (i : ℕ) :
    stepC p nx (fun _ => q) (fun _ => r) i = q := by
  unfold stepC
  rw [grad_const, grad_const]
  rw [growth_zero_mu p _ _ i hmu]
  simp [infiltration_input, rain_input, hrain, liner_loss, liner_leakage, hperm]
  exact hq

/-- In the concrete scenario every row of the state is the unchanged
uniform initial row and the gas stays zero. -/
lemma scenario_state : ∀ n,
    (∀ i, Cfield scenarioP 10 n i = 100) ∧
    (∀ i, Bfield scenarioP 10 n i = 50) ∧
    gasSeries scenarioP 10 n = 0 := by
  intro n
  induction n with
  | zero => exact ⟨fun _ => rfl, fun _ => rfl, rfl⟩
  | succ m ih =>
    obtain ⟨hC, hB, hg⟩ := ih
    have hCrow : (fun j => Cfield scenarioP 10 m j) = fun _ => (100 : ℚ) :=
      funext hC
    have hBrow : (fun j => Bfield scenarioP 10 m j) = fun _ => (50 : ℚ) :=
      funext hB
    refine ⟨fun i => ?_, fun i => ?_, ?_⟩
    · rw [Cfield_succ, hCrow, hBrow]
      exact stepC_const scenarioP 10 100 50 (by norm_num) rfl rfl rfl i
    · rw [Bfield_succ, hCrow, hBrow, hB i, growth_zero_mu scenarioP _ _ i rfl]
      ring
    · rw [gasSeries_succ, hg, hCrow, hBrow]
      have hz : ∀ i ∈ Finset.range 10,
          growth scenarioP (fun _ => (100 : ℚ)) (fun _ => (50 : ℚ)) i * dt
            * scenarioP.biogas_yield = 0 := by
        intro i _
        rw [growth_zero_mu scenarioP _ _ i rfl]
        ring
      rw [Finset.sum_congr rfl hz]
      simp

/-- C5: in the concrete scenario (length 10, dx 1, five daily steps,
velocity 0.05, dispersion 0.01, rainfall 0, permeability 0, Kd 0, mu_max 0,
uniform initial concentration 100 and biomass 50) the concentration field
is exactly 100 at every node of all 5 rows, the biomass field is constant
at 50, and the cumulative gas series is identically zero. -/
theorem uniform_scenario_constant :
    ∀ n, n < 5 → ∀ i, i < 10 →
      Cfield scenarioP 10 n i = 100 ∧
      Bfield scenarioP 10 n i = 50 ∧
      gasSeries scenarioP 10 n = 0 := by
  intro n _ i _
  exact ⟨(scenario_state n).1 i, (scenario_state n).2.1 i, (scenario_state n).2.2⟩

/-- Witness for C5 at the last row and node. -/
theorem uniform_scenario_constant_witness :
    Cfield scenarioP 10 4 9 = 100 ∧ Bfield scenarioP 10 4 9 = 50 ∧
    gasSeries scenarioP 10 4 = 0 :=
  uniform_scenario_constant 4 (by decide) 9 (by decide)

/-- C10: one stepper step is local in its boundary parameters.  From
identical previous rows, changing only the rainfall rate or infiltration
coefficient changes the new concentration row at most at node 0; changing
only the liner thickness or permeability changes it at most at the last
node `nx - 1`; the new biomass row and the gas update are identical in
both cases. -/
theorem step_locality (p : Params) (r ic th pe : ℚ) (nx : ℕ) (c b : ℕ → ℚ) :
    (∀ i, i ≠ 0 → stepC (withRain p r ic) nx c b i = stepC p nx c b i) ∧
    (∀ i, i ≠ nx - 1 → stepC (withLiner p th pe) nx c b i = stepC p nx c b i) ∧
    (∀ i, stepB (withRain p r ic) c b i = stepB p c b i) ∧
    (∀ i, stepB (withLiner p th pe) c b i = stepB p c b i) ∧
    (∀ g : ℚ, stepGas (withRain p r ic) nx c b g = stepGas p nx c b g) ∧
    (∀ g : ℚ, stepGas (withLiner p th pe) nx c b g = stepGas p nx c b g) := by
  refine ⟨?_, ?_, fun i => rfl, fun i => rfl, fun g => rfl, fun g => rfl⟩
  · intro i h
    unfold stepC
    simp [infiltration_input, h, withRain, growth, monod, liner_loss,
      liner_leakage, rain_input]
  · intro i h
    unfold stepC
    simp [liner_loss, h, withLiner, growth, monod, infiltration_input,
      rain_input, liner_leakage]

/-- Witness for C10: concrete parameter sets differing only in the rainfall
fields agree at interior node 1 after one step. -/
theorem step_locality_witness :
    stepC (withRain pW 3 (1/4)) 4 (fun j => (j : ℚ)) (fun _ => 2) 1
      = stepC pW 4 (fun j => (j : ℚ)) (fun _ => 2) 1 :=
  (step_locality pW 3 (1/4) 7 9 4 (fun j => (j : ℚ)) (fun _ => 2)).1 1 (by decide)

/-- Counterexample to C7: with the out-of-domain parameter set `pBad`
(`Ks = -50 ≤ 0`, permeability `= 0`), no configuration failure happens:
the simulation allocates state and computes a complete non-trivial biomass
row (`B[1,0] = 60`), so the program does not fail fast before state
allocation on out-of-domain input. -/
theorem no_config_failure_counterexample :
    Bfield pBad 3 1 0 = 60 := by
  rw [Bfield_succ]
  norm_num [growth, monod, pBad, Bfield_zero, Cfield_zero, dt]

/-- C7 amended: the core performs no domain validation and never raises a
configuration error.  For any parameter set whose arithmetic is defined —
`liner_thickness ≠ 0`, the only parameter the pre-loop scalar code divides
by — the driver computes every time row with no failure, and each
post-initial row is still clamped non-negative; this includes out-of-domain
values such as `Ks ≤ 0` or permeability `≤ 0`.  (A zero liner thickness, or
a negative duration at allocation, aborts with an uncaught arithmetic or
allocation error, not a configuration error.) -/
theorem no_validation_simulation_total (p : Params) (nx n i : ℕ)
    (hth : p.liner_thickness ≠ 0) :
    0 ≤ Cfield p nx (n + 1) i := by
  exact le_max_right _ 0

/-- Witness for the amended C7 at the out-of-domain parameter set `pBad`
(whose liner thickness is 1, so its arithmetic is defined). -/
theorem no_validation_simulation_total_witness :
    pBad.liner_thickness ≠ 0 ∧ 0 ≤ Cfield pBad 3 1 0 :=
  ⟨by norm_num [pBad], no_validation_simulation_total pBad 3 0 0 (by norm_num [pBad])⟩

